import Mathlib

/-!
Verification of the XSpectra workchains of `aiida-quantumespresso`
(`workflows/xspectra/base.py` and `workflows/xspectra/crystal.py`).

Modelling conventions, used throughout:

* Machine floats that only ever hold small exact values (polarization
  vectors, spectrum arrays, walltime fractions) are modelled as `ℚ`.
* A finished calculation node is modelled as its inputs together with the
  outcome the scheduler produced for it (`exit_status`, its own remote
  folder id, its parsed output parameters).  `is_finished_ok` is
  `exit_status = 0`.
* Production labels always have the string form `xas_prod_{n}_iter_{k}`
  (built with f-strings in `run_all_xspectra_prod` and re-parsed with
  `label.split('_')`).  Since none of the pieces contains an underscore the
  split/join pair is the identity on these labels, and we represent a label
  by the pair `(n, k)`; `calcLabel` renders the underlying string.
* Python dictionaries are modelled as association lists in insertion order;
  `dict[k] = v` is `ctxInsert`, `dict[k]` is `ctxLookup`.
* Code paths that raise an unhandled Python exception (`NameError`,
  `KeyError`, `ValueError`, `IndexError`) are modelled by `Option`/`Except`
  failures carrying the exception name.
-/

namespace AiidaXspectra

/-- A polarization 3-vector (`xepsilon(1..3)`), exact rational components. -/
abbrev Vec3 := ℚ × ℚ × ℚ

/-- An `XyData` node holding a single spectrum: one x array with label and
units, one y array with label and units. -/
structure Spectrum where
  x : List ℚ
  xlabel : String
  xunits : String
  y : List ℚ
  ylabel : String
  yunits : String
deriving Repr, DecidableEq

/-- The last value bound by a Python loop that assigns `acc = kv` whenever
the key satisfies `p` (used for the `spectrum_a`/`spectrum_c` bindings in
`get_powder_spectrum`). -/
def lastBinding (p : String → Bool) (l : List (String × Spectrum)) : Option Spectrum :=
  l.foldl (fun acc kv => if p kv.1 then some kv.2 else acc) none

/-- First-match lookup in an association list, modelling a Python `dict[k]`
access (`none` models a raised `KeyError`). -/
def lookupFirst (k : String) : List (String × Spectrum) → Option Spectrum
  | [] => none
  | kv :: rest => if kv.1 = k then some kv.2 else lookupFirst k rest

/-- Embedding of the calcfunction `get_powder_spectrum` of
`workflows/xspectra/base.py` (lines 57-124).  The input is the labelled
mapping of spectra (insertion order preserved); `none` models the
`NameError`/`KeyError` paths (no matching length branch, or a required
label missing inside a branch). -/
def get_powder_spectrum (spectra : List (String × Spectrum)) : Option Spectrum :=
  if spectra.length = 1 then
    -- isochoric: return the single spectrum unchanged, with fresh labels
    match spectra with
    | kv :: _ =>
      some { x := kv.2.x, xlabel := "energy", xunits := "eV",
             y := kv.2.y, ylabel := "sigma", yunits := "n/a" }
    | [] => none
  else if spectra.length = 2 then
    -- dichoric: powder_y = ((yvals_a * 2) + yvals_c) / 3
    match lastBinding (fun l => l = "eps_100" || l = "eps_010") spectra,
          lastBinding (fun l => l = "eps_001") spectra with
    | some spectrum_a, some spectrum_c =>
      some { x := spectrum_a.x, xlabel := "energy", xunits := "eV",
             y := List.zipWith (fun a c => (a * 2 + c) / 3) spectrum_a.y spectrum_c.y,
             ylabel := "sigma", yunits := "n/a" }
    | _, _ => none
  else if spectra.length = 3 then
    -- trichoric: powder_y = (yvals_a + yvals_b + yvals_c) / 3
    match lookupFirst ("eps_100") spectra,
          lookupFirst ("eps_010") spectra,
          lookupFirst ("eps_001") spectra with
    | some spectrum_a, some spectrum_b, some spectrum_c =>
      some { x := spectrum_a.x, xlabel := "energy", xunits := "eV",
             y := List.zipWith3 (fun a b c => (a + b + c) / 3)
                    spectrum_a.y spectrum_b.y spectrum_c.y,
             ylabel := "sigma", yunits := "n/a" }
    | _, _, _ => none
  else none

/-- The canonical polarization basis `[[1,0,0],[0,1,0],[0,0,1]]`
(`eps_powder_vectors` in `results`). -/
def eps_powder_vectors : List Vec3 := [(1, 0, 0), (0, 1, 0), (0, 0, 1)]

/-- Embedding of the space-group dispatch of
`XspectraCrystalWorkChain.get_xspectra_structures` (crystal.py lines
449-454): three successive `if spacegroup_number in range(a, b)` statements
assigning `self.ctx.eps_vectors`; `none` models the attribute staying
unset for an out-of-range number. -/
def spacegroup_eps_vectors (sg : ℕ) : Option (List Vec3) :=
  let v0 : Option (List Vec3) := none
  let v1 := if 1 ≤ sg ∧ sg < 75 then some [(1, 0, 0), (0, 1, 0), (0, 0, 1)] else v0
  let v2 := if 75 ≤ sg ∧ sg < 195 then some [(1, 0, 0), (0, 0, 1)] else v1
  let v3 := if 195 ≤ sg ∧ sg < 231 then some [(1, 0, 0)] else v2
  v3

/-! ### Text parsing in `inspect_upf2plotcore` (crystal.py lines 487-501)

The code computes `int(core_wfc_data.get_content()[:40].split(' ')[5])`.
We model text as `List Char`; `String.toList` bridges from string
literals. -/

/-- Split a character list at every separator character, keeping empty
pieces between consecutive separators (the behaviour of Python
`text.split(sep)` with an explicit separator). -/
def splitOnPred (p : Char → Bool) : List Char → List (List Char)
  | [] => [[]]
  | c :: rest =>
    let r := splitOnPred p rest
    if p c then [] :: r
    else
      match r with
      | t :: ts => (c :: t) :: ts
      | [] => [[c]]

/-- Python `text.split(' ')`: split on every single space, keeping empty
pieces between consecutive separators. -/
def splitOnSpaceChar : List Char → List (List Char) :=
  splitOnPred (fun c => c = ' ')

/-- Digit-string value accumulator for `pyInt`. -/
def digitsValAux : List Char → ℕ → Option ℕ
  | [], acc => some acc
  | d :: rest, acc =>
    if d.isDigit then digitsValAux rest (acc * 10 + (d.toNat - Char.toNat '0'))
    else none

/-- Value of a nonempty all-digit character list, `none` otherwise. -/
def digitsVal (l : List Char) : Option ℕ :=
  if l.isEmpty then none else digitsValAux l 0

/-- Strip leading and trailing whitespace, as Python `int()` does before
parsing. -/
def stripEnds (l : List Char) : List Char :=
  ((l.dropWhile Char.isWhitespace).reverse.dropWhile Char.isWhitespace).reverse

/-- Python `int(token)` on a clean decimal token: optional sign, then
digits, with surrounding whitespace tolerated; `none` models the
`ValueError` raised otherwise. -/
def pyInt (l : List Char) : Option ℤ :=
  match stripEnds l with
  | '-' :: rest => (digitsVal rest).map (fun n => -(n : ℤ))
  | '+' :: rest => (digitsVal rest).map (fun n => (n : ℤ))
  | rest => (digitsVal rest).map (fun n => (n : ℤ))

/-- Embedding of the count parsed by `inspect_upf2plotcore` from one
element's `upf2plotcore.sh` stdout:
`int(core_wfc_data.get_content()[:40].split(' ')[5])`.  `none` models an
`IndexError` (fewer than 6 pieces) or `ValueError` (piece not an
integer). -/
def num_core_states (content : String) : Option ℤ :=
  match (splitOnSpaceChar (content.toList.take 40)).get? 5 with
  | none => none
  | some tok => pyInt tok

/-- Embedding of the loop of `XspectraCrystalWorkChain.inspect_upf2plotcore`
(crystal.py lines 487-501) over the per-element stdout contents, in element
order.  `Except.error` models an unhandled parse exception,
`.ok (some 403)` the `ERROR_NO_GIPAW_INFO_FOUND` exit code, `.ok none` a
pass. -/
def inspect_upf2plotcore : List String → Except String (Option ℕ)
  | [] => .ok none
  | c :: rest =>
    match num_core_states c with
    | none => .error "ValueError or IndexError"
    | some n => if n = 0 then .ok (some 403) else inspect_upf2plotcore rest

/-- Count of core states as the specification words it: the 6th
whitespace-separated token of the first line of the output text, parsed as
an integer.  Defined from the spec sentence, for comparison with
`num_core_states` (the source's own computation). -/
def spec_num_core_states (content : String) : Option ℤ :=
  let firstLine := content.toList.takeWhile (fun c => ¬ (c = '\n'))
  let tokens := (splitOnPred Char.isWhitespace firstLine).filter (fun t => ¬ t.isEmpty)
  match tokens.get? 5 with
  | none => none
  | some tok => pyInt tok

/-! ### Absorbing-species index (`xiabs`)

`XspectraBaseWorkChain.run_all_xspectra_prod` (base.py lines 475-485)
computes `xiabs` with a counter loop over the sorted kind names;
`XspectraCrystalWorkChain.run_all_xspectra_core` (crystal.py lines 533-536)
computes it as `sorted(kinds).index(marker) + 1`. -/

/-- Lexicographic (code-point) order on character lists: the order Python
uses to sort strings. -/
def charListLe : List Char → List Char → Bool
  | [], _ => true
  | _ :: _, [] => false
  | a :: as, b :: bs =>
    if a.toNat < b.toNat then true
    else if a.toNat = b.toNat then charListLe as bs
    else false

/-- Code-point order on strings. -/
def strLe (a b : String) : Bool := charListLe a.toList b.toList

/-- Insert into a sorted list, keeping equal elements in their original
relative order. -/
def insertSorted (le : α → α → Bool) (x : α) : List α → List α
  | [] => [x]
  | y :: ys => if le x y then x :: y :: ys else y :: insertSorted le x ys

/-- Stable ascending sort, modelling Python `sorted` / `list.sort`. -/
def pySorted (le : α → α → Bool) : List α → List α
  | [] => []
  | x :: xs => insertSorted le x (pySorted le xs)

/-- Sorted kind names of a structure, as both workchains produce them. -/
def sortedKinds (kinds : List String) : List String := pySorted strLe kinds

/-- The counter loop of base.py lines 480-485: `kind_counter` starts at 1,
`xiabs` is bound whenever the current kind equals the marker, and the
counter is incremented only on the other kinds. -/
def kind_counter_loop (marker : String) : List String → ℕ → Option ℕ → Option ℕ
  | [], _, acc => acc
  | k :: rest, counter, acc =>
    if k = marker then kind_counter_loop marker rest counter (some counter)
    else kind_counter_loop marker rest (counter + 1) acc

/-- `xiabs` as `XspectraBaseWorkChain.run_all_xspectra_prod` computes it
(`none` models `xiabs` staying unbound when the marker is absent). -/
def base_xiabs (kinds : List String) (marker : String) : Option ℕ :=
  kind_counter_loop marker (sortedKinds kinds) 1 none

/-- Position of the first occurrence, modelling Python `list.index`
(meaningful only when the element occurs). -/
def py_index (m : String) : List String → ℕ
  | [] => 0
  | k :: rest => if k = m then 0 else py_index m rest + 1

/-- `xiabs` as `XspectraCrystalWorkChain.run_all_xspectra_core` computes
it: `sorted(kinds).index(marker) + 1` (`none` models the `ValueError` of
`index` when the marker is absent). -/
def crystal_xiabs (kinds : List String) (marker : String) : Option ℕ :=
  let ks := sortedKinds kinds
  if marker ∈ ks then some (py_index marker ks + 1) else none

/-! ### The spectral production / replot state machine of
`XspectraBaseWorkChain`

The outline (base.py lines 269-281) runs, after the SCF step:

```
while_(should_repeat_xs_prod)(run_all_xspectra_prod, inspect_all_xspectra_prod)
run_all_xspectra_plot
inspect_all_xspectra_plot
results
```

The outcome of each submitted `XspectraCalculation` is external input: it
is supplied by an environment function from (production pass number, label
stem) — respectively plot label stem — to the finished node's result. -/

/-- The `INPUT_XSPECTRA` parameters the workflow reads or writes; every
other entry travels untouched in `rest`. -/
structure XsParameters where
  xiabs : ℕ
  time_limit : ℚ
  restart_mode : Option String
  xepsilon1 : ℚ
  xepsilon2 : ℚ
  xepsilon3 : ℚ
  rest : List (String × ℚ)
deriving Repr, DecidableEq

/-- Outcome of a finished `XspectraCalculation`: its exit status (0 models
`is_finished_ok`), the id of its own `remote_folder` output, the
`epsilon_vector` entry of its `output_parameters`, and its `spectra`
output (meaningful for replot jobs). -/
structure JobResult where
  exit_status : ℕ
  remote_folder : ℕ
  epsilon_vector : Vec3
  spectra : Spectrum
deriving Repr, DecidableEq

/-- A production `XspectraCalculation` node: label `xas_prod_{stem}_iter_{iter}`,
its input parameters and parent folder, and its result. -/
structure XsCalc where
  stem : ℕ
  iter : ℕ
  parameters : XsParameters
  parent_folder : ℕ
  result : JobResult
deriving Repr, DecidableEq

/-- The label string of a production calculation, as built by the
f-strings of `run_all_xspectra_prod`. -/
def calcLabel (c : XsCalc) : String :=
  "xas_prod_" ++ Nat.repr c.stem ++ "_iter_" ++ Nat.repr c.iter

/-- A replot `XspectraCalculation` node: label `xas_plot_{stem}`, the
accepted production calculation it restarts from (reached in the source
through `outputs.parent_folder.creator`), its parameters and result. -/
structure PlotCalc where
  stem : ℕ
  parameters : XsParameters
  parent : XsCalc
  result : JobResult
deriving Repr, DecidableEq

/-- The inputs of `XspectraBaseWorkChain` that the production and replot
steps consume, together with the SCF results already in the context when
the production loop starts. -/
structure BaseInputs where
  eps_vectors : List Vec3
  structure_kinds : List String
  abs_atom_marker : String
  xs_prod_parameters : XsParameters
  xs_plot_parameters : XsParameters
  max_wallclock_seconds : ℚ
  scf_parent_folder : ℕ
  collect_powder : Bool
deriving Repr, DecidableEq

/-- Environment giving the result of the production job with a given label
stem submitted on a given pass (pass numbers count calls of
`run_all_xspectra_prod`, starting at 0). -/
abbrev ProdEnv := ℕ → ℕ → JobResult

/-- Environment giving the result of the replot job with a given label
stem. -/
abbrev PlotEnv := ℕ → JobResult

/-- Insert-or-overwrite on an association list, modelling `dict[k] = v`
(the `ToContext` merge keyed by `call_link_label`). -/
def ctxInsert (key : ℕ) (v : α) : List (ℕ × α) → List (ℕ × α)
  | [] => [(key, v)]
  | kv :: rest => if kv.1 = key then (key, v) :: rest else kv :: ctxInsert key v rest

/-- First-match lookup, modelling `self.ctx[label]`. -/
def ctxLookup (key : ℕ) : List (ℕ × α) → Option α
  | [] => none
  | kv :: rest => if kv.1 = key then some kv.2 else ctxLookup key rest

/-- The context of `XspectraBaseWorkChain` touched by the production and
replot steps.  `pass_no` counts the production passes run so far and
`submitted` is the ordered log of every production submission; both are
bookkeeping of the model, not context keys of the source. -/
structure WorkCtx where
  pass_no : ℕ
  lanczos_to_restart : List XsCalc
  finished_lanczos : List XsCalc
  all_lanczos_computed : Bool
  xspectra_calc_labels : List ℕ
  prod_ctx : List (ℕ × XsCalc)
  plot_ctx : List (ℕ × PlotCalc)
  finished_replots : List PlotCalc
  submitted : List XsCalc
deriving Repr, DecidableEq

/-- The context right after `setup` (base.py lines 375-381). -/
def setupCtx : WorkCtx :=
  { pass_no := 0, lanczos_to_restart := [], finished_lanczos := [],
    all_lanczos_computed := false, xspectra_calc_labels := [],
    prod_ctx := [], plot_ctx := [], finished_replots := [], submitted := [] }

/-- A first-pass production submission for vector number `i` (base.py
lines 491-516): exposed `xs_prod` parameters with `xiabs`, `time_limit`
(90% of the walltime) and `xepsilon(1..3)` filled in, parent folder the
SCF remote folder, label `xas_prod_{i}_iter_1`.  The input validator
guarantees the absorbing marker occurs among the kinds, so the `getD`
default is never taken on a run the source accepts. -/
def freshProdCalc (inputs : BaseInputs) (res : JobResult) (i : ℕ) (v : Vec3) : XsCalc :=
  { stem := i, iter := 1,
    parameters :=
      { inputs.xs_prod_parameters with
        xiabs := (base_xiabs inputs.structure_kinds inputs.abs_atom_marker).getD 0,
        time_limit := inputs.max_wallclock_seconds * (9 / 10),
        xepsilon1 := v.1, xepsilon2 := v.2.1, xepsilon3 := v.2.2 },
    parent_folder := inputs.scf_parent_folder,
    result := res }

/-- A restart production submission for a timed-out calculation (base.py
lines 518-547): the prior attempt's own input parameters with
`restart_mode = 'restart'`, parent folder the prior attempt's own remote
folder, same label stem with the iteration suffix incremented. -/
def restartProdCalc (c : XsCalc) (res : JobResult) : XsCalc :=
  { stem := c.stem, iter := c.iter + 1,
    parameters := { c.parameters with restart_mode := some "restart" },
    parent_folder := c.result.remote_folder,
    result := res }

/-- Embedding of `XspectraBaseWorkChain.run_all_xspectra_prod` (base.py
lines 464-550).  With an empty restart list it submits one fresh job per
`eps_vectors` entry; otherwise it submits exactly the restart jobs.  The
new submissions land in the context keyed by their stem and become the
recorded label list. -/
def newProdCalcs (inputs : BaseInputs) (env : ProdEnv) (s : WorkCtx) : List XsCalc :=
  if s.lanczos_to_restart.isEmpty then
    (inputs.eps_vectors.enum).map (fun p => freshProdCalc inputs (env s.pass_no p.1) p.1 p.2)
  else
    s.lanczos_to_restart.map (fun c => restartProdCalc c (env s.pass_no c.stem))

/-- The state update of `run_all_xspectra_prod`: the new submissions land
in the context keyed by their stem, become the recorded label list, and
are appended to the submission log. -/
def run_all_xspectra_prod (inputs : BaseInputs) (env : ProdEnv) (s : WorkCtx) : WorkCtx :=
  let newCalcs : List XsCalc := newProdCalcs inputs env s
  { s with
    pass_no := s.pass_no + 1,
    xspectra_calc_labels := newCalcs.map (fun c => c.stem),
    prod_ctx := newCalcs.foldl (fun m c => ctxInsert c.stem c m) s.prod_ctx,
    submitted := s.submitted ++ newCalcs }

/-- The calculations `inspect_all_xspectra_prod` gathers from the recorded
labels (base.py lines 555-559); every recorded label has a context entry,
set by the preceding `run_all_xspectra_prod`. -/
def prodCalcsToInspect (s : WorkCtx) : List XsCalc :=
  s.xspectra_calc_labels.filterMap (fun l => ctxLookup l s.prod_ctx)

/-- The per-calculation loop of `inspect_all_xspectra_prod` (base.py lines
564-583): successes append to `finished_lanczos` as they are seen, 400
(out of walltime) joins the restart list, any other failure returns
`ERROR_SUB_PROCESS_FAILED_XSPECTRA` (402) on the spot.  After the loop the
restart list is stored when restarts are required, otherwise
`all_lanczos_computed` is set. -/
def inspect_prod_loop (s : WorkCtx) :
    List XsCalc → List XsCalc → List XsCalc → Bool → Except ℕ WorkCtx
  | [], finished, restarts, restarts_required =>
    if restarts_required then
      .ok { s with finished_lanczos := finished, lanczos_to_restart := restarts }
    else
      .ok { s with finished_lanczos := finished, all_lanczos_computed := true }
  | c :: rest, finished, restarts, restarts_required =>
    if c.result.exit_status = 0 then
      inspect_prod_loop s rest (finished ++ [c]) restarts restarts_required
    else if c.result.exit_status = 400 then
      inspect_prod_loop s rest finished (restarts ++ [c]) true
    else
      .error 402

/-- Embedding of `XspectraBaseWorkChain.inspect_all_xspectra_prod`
(base.py lines 552-583). -/
def inspect_all_xspectra_prod (s : WorkCtx) : Except ℕ WorkCtx :=
  inspect_prod_loop s (prodCalcsToInspect s) s.finished_lanczos [] false

/-- The production `while_` loop, driven by `should_repeat_xs_prod` and
bounded by `fuel` passes.  The second component is the exit code returned
from inside the loop, if any; with it `none`, the first component either
has `all_lanczos_computed` set (loop finished) or the fuel ran out. -/
def xs_prod_loop (inputs : BaseInputs) (env : ProdEnv) : ℕ → WorkCtx → WorkCtx × Option ℕ
  | 0, s => (s, none)
  | fuel + 1, s =>
    if s.all_lanczos_computed then (s, none)
    else
      let s1 := run_all_xspectra_prod inputs env s
      match inspect_all_xspectra_prod s1 with
      | .error e => (s1, some e)
      | .ok s2 => xs_prod_loop inputs env fuel s2

/-- A replot submission for an accepted production calculation (base.py
lines 599-622): exposed `xs_plot` parameters with `xepsilon(1..3)` read
back from the accepted job's output parameters, parent folder the
accepted job's own remote folder, label the production stem with `prod`
replaced by `plot`. -/
def plotCalcFor (inputs : BaseInputs) (envp : PlotEnv) (c : XsCalc) : PlotCalc :=
  { stem := c.stem,
    parameters :=
      { inputs.xs_plot_parameters with
        xepsilon1 := c.result.epsilon_vector.1,
        xepsilon2 := c.result.epsilon_vector.2.1,
        xepsilon3 := c.result.epsilon_vector.2.2 },
    parent := c,
    result := envp c.stem }

/-- Embedding of `XspectraBaseWorkChain.run_all_xspectra_plot` (base.py
lines 585-624): one replot submission per entry of `finished_lanczos`. -/
def run_all_xspectra_plot (inputs : BaseInputs) (envp : PlotEnv) (s : WorkCtx) : WorkCtx :=
  let plots := s.finished_lanczos.map (plotCalcFor inputs envp)
  { s with plot_ctx := plots.foldl (fun m p => ctxInsert p.stem p m) s.plot_ctx }

/-- The replot calculations `inspect_all_xspectra_plot` gathers: it reads
`self.ctx.xspectra_calc_labels` — the labels recorded by the LAST
production pass — and looks up `ctx[f'{label}_plot']` for each (base.py
lines 629-633). -/
def plotCalcsToInspect (s : WorkCtx) : List PlotCalc :=
  s.xspectra_calc_labels.filterMap (fun l => ctxLookup l s.plot_ctx)

/-- Embedding of `XspectraBaseWorkChain.inspect_all_xspectra_plot`
(base.py lines 626-645): the loop flags any inspected replot that is not
finished ok and collects the finished ones; the flag is checked after the
loop. -/
def inspect_all_xspectra_plot (s : WorkCtx) : Except ℕ WorkCtx :=
  let calcs := plotCalcsToInspect s
  if calcs.any (fun p => ¬ p.result.exit_status = 0) then .error 402
  else .ok { s with finished_replots := calcs.filter (fun p => p.result.exit_status = 0) }

/-! ### The `results` step (base.py lines 647-733) -/

/-- The warnings `results` can report. -/
inductive XsWarning where
  | missing_c_axis
  | no_suitable_vectors
deriving Repr, DecidableEq

/-- The compiled `output_spectra` node (`get_all_spectra`, base.py lines
20-54): the y array of every replot spectrum labelled by its
`epsilon_vector`, the x grid taken from the last spectrum of the loop. -/
structure MultiSpectrum where
  x : List ℚ
  y_arrays : List (Vec3 × List ℚ)
deriving Repr, DecidableEq

/-- Embedding of the calcfunction `get_all_spectra` over the replot
calculations, keeping the epsilon vector in place of the rendered
`sigma_{e1}_{e2}_{e3}` label. -/
def get_all_spectra (plots : List PlotCalc) : MultiSpectrum :=
  { x := ((plots.map (fun p => p.result.spectra.x)).getLast?).getD [],
    y_arrays := plots.map (fun p => (p.result.epsilon_vector, p.result.spectra.y)) }

/-- The outputs `results` attaches. -/
structure XsOutputs where
  powder_spectrum : Option Spectrum
  warnings : List XsWarning
  output_spectra : MultiSpectrum
deriving Repr, DecidableEq

/-- The labelled basis spectra `results` would hand to
`get_powder_spectrum` (base.py lines 670-685): for each replot whose
production parent's `epsilon_vector` is a canonical basis vector, its
spectrum keyed `eps_100` / `eps_010` / `eps_001`.  Part of the powder
branch, which is unreachable (see `results`). -/
def eps_basis_calcs (plots : List PlotCalc) : List (String × Spectrum) :=
  (plots.filterMap (fun p =>
    if p.parent.result.epsilon_vector = ((1 : ℚ), (0 : ℚ), (0 : ℚ)) then
      some ("eps_100", p.result.spectra)
    else if p.parent.result.epsilon_vector = ((0 : ℚ), (1 : ℚ), (0 : ℚ)) then
      some ("eps_010", p.result.spectra)
    else if p.parent.result.epsilon_vector = ((0 : ℚ), (0 : ℚ), (1 : ℚ)) then
      some ("eps_001", p.result.spectra)
    else none))

/-- Embedding of `XspectraBaseWorkChain.results` (base.py lines 647-733).

Faithful to the source, including its slip: the loop over the finished
production calculations binds `basis_vectors_present = True` when a
canonical basis vector is found (line 663), while the powder branch tests
`should_collect_powder`, which is initialised `False` on line 657 and
never updated — so the powder branch (lines 666-699), with its
missing-C-axis guard and the `get_powder_spectrum` call, can never run.
When `collect_powder` is set and no basis vector was ever found,
`basis_vectors_present` is read unbound on line 700 (`NameError`,
modelled as `.error`). -/
def results (inputs : BaseInputs) (s : WorkCtx) : Except String XsOutputs :=
  let prod_calcs := s.finished_lanczos
  let plot_calcs := s.finished_replots
  let basis_vectors_present : Option Bool :=
    if prod_calcs.any (fun c => c.result.epsilon_vector ∈ eps_powder_vectors) then
      some true
    else none
  let should_collect_powder : Bool := false
  let output_spectra := get_all_spectra plot_calcs
  if inputs.collect_powder ∧ should_collect_powder then
    -- dead branch (see the doc comment); its body, lines 667-699:
    let basis := eps_basis_calcs plot_calcs
    let a_vector_present := (basis.map (fun kv => kv.1)).contains "eps_100"
    let b_vector_present := (basis.map (fun kv => kv.1)).contains "eps_010"
    let c_vector_present := (basis.map (fun kv => kv.1)).contains "eps_001"
    if a_vector_present ∧ b_vector_present ∧ ¬ c_vector_present then
      .ok { powder_spectrum := none, warnings := [XsWarning.missing_c_axis],
            output_spectra := output_spectra }
    else
      match get_powder_spectrum basis with
      | some powder =>
        .ok { powder_spectrum := some powder, warnings := [],
              output_spectra := output_spectra }
      | none => .error "error in get_powder_spectrum"
  else if inputs.collect_powder then
    -- line 700: `elif self.inputs.collect_powder and not basis_vectors_present`
    match basis_vectors_present with
    | none => .error "NameError: basis_vectors_present"
    | some b =>
      if ¬ b then
        .ok { powder_spectrum := none, warnings := [XsWarning.no_suitable_vectors],
              output_spectra := output_spectra }
      else
        .ok { powder_spectrum := none, warnings := [], output_spectra := output_spectra }
  else
    .ok { powder_spectrum := none, warnings := [], output_spectra := output_spectra }

/-- Overall outcome of the modelled part of the workchain. -/
inductive RunOutcome where
  | running
  | failed (exit_code : ℕ)
  | excepted (msg : String)
  | finished (outputs : XsOutputs)
deriving Repr, DecidableEq

/-- The outline of `XspectraBaseWorkChain` from the production loop
onwards: the `while_` loop, then the replot fan-out and its inspection,
then `results`.  Returns the final context together with the outcome;
`.running` means the fuel bound ended before the loop did. -/
def xspectra_base_workchain (inputs : BaseInputs) (env : ProdEnv) (envp : PlotEnv)
    (fuel : ℕ) : WorkCtx × RunOutcome :=
  match xs_prod_loop inputs env fuel setupCtx with
  | (s, some e) => (s, .failed e)
  | (s, none) =>
    if s.all_lanczos_computed then
      let s1 := run_all_xspectra_plot inputs envp s
      match inspect_all_xspectra_plot s1 with
      | .error e => (s1, .failed e)
      | .ok s2 =>
        match results inputs s2 with
        | .error m => (s2, .excepted m)
        | .ok o => (s2, .finished o)
    else (s, .running)

/-! ### Predicates and concrete scenarios used by the theorems -/

/-- Ordered-pair safety of the submission log: whenever an earlier
submission was accepted (finished ok), every later submission has a
different label stem — i.e. an accepted vector is never resubmitted. -/
def ProdSafe (a b : XsCalc) : Prop :=
  a.result.exit_status = 0 → b.stem ≠ a.stem

/-- Invariant of the production loop, holding at every loop head. -/
structure LoopInv (s : WorkCtx) : Prop where
  log_safe : s.submitted.Pairwise ProdSafe
  restart_400 : ∀ c ∈ s.lanczos_to_restart, c.result.exit_status = 400
  restart_not_accepted : s.all_lanczos_computed = false →
    ∀ a ∈ s.submitted, a.result.exit_status = 0 →
      ∀ c ∈ s.lanczos_to_restart, c.stem ≠ a.stem
  restart_nodup : s.all_lanczos_computed = false →
    (s.lanczos_to_restart.map (fun c => c.stem)).Nodup
  restart_nonempty : s.all_lanczos_computed = false → s.pass_no ≠ 0 →
    s.lanczos_to_restart ≠ []
  first_pass : s.pass_no = 0 → s.submitted = [] ∧ s.lanczos_to_restart = []

/-- Whether an outcome is a successful completion. -/
def RunOutcome.isFinished : RunOutcome → Bool
  | .finished _ => true
  | _ => false

/-- The outputs of a successful completion. -/
def RunOutcome.outputs : RunOutcome → Option XsOutputs
  | .finished o => some o
  | _ => none

/-- An all-defaults parameter record for concrete scenarios. -/
def params0 : XsParameters :=
  { xiabs := 0, time_limit := 0, restart_mode := none,
    xepsilon1 := 0, xepsilon2 := 0, xepsilon3 := 0, rest := [] }

/-- A flat spectrum used as the payload of scenario job results. -/
def spectrum0 : Spectrum :=
  { x := [0, 1], xlabel := "energy", xunits := "eV",
    y := [0, 0], ylabel := "sigma", yunits := "counts" }

/-- A job result for concrete scenarios. -/
def mkResult (e : ℕ) (folder : ℕ) (v : Vec3) : JobResult :=
  { exit_status := e, remote_folder := folder, epsilon_vector := v,
    spectra := { spectrum0 with y := [1, 1] } }

/-- Scenario inputs with the two basis vectors `[1,0,0]` and `[0,1,0]`
and no powder collection (used for C2 and C5). -/
def scnInputsAB : BaseInputs :=
  { eps_vectors := [(1, 0, 0), (0, 1, 0)],
    structure_kinds := [("Si"), ("X")], abs_atom_marker := "X",
    xs_prod_parameters := params0, xs_plot_parameters := params0,
    max_wallclock_seconds := 10, scf_parent_folder := 1,
    collect_powder := false }

/-- C2 scenario environment: on the first pass the job for vector 0
succeeds and the job for vector 1 fails with exit status 500. -/
def c2Env : ProdEnv := fun _ stem =>
  if stem = 0 then mkResult 0 10 (1, 0, 0) else mkResult 500 11 (0, 1, 0)

/-- Plot environment for the C2 scenario (never reached). -/
def c2PlotEnv : PlotEnv := fun stem => mkResult 0 (20 + stem) (0, 0, 0)

/-- C5 scenario environment: on pass 0 the job for vector 0 succeeds and
the job for vector 1 times out (exit 400); on pass 1 its restart
succeeds. -/
def c5Env : ProdEnv := fun pass stem =>
  if stem = 0 then mkResult 0 10 (1, 0, 0)
  else if pass = 0 then mkResult 400 11 (0, 1, 0)
  else mkResult 0 12 (0, 1, 0)

/-- C5 scenario plot environment: the replot of the job accepted on the
first pass fails with exit 500; the replot of the restarted job
succeeds. -/
def c5PlotEnv : PlotEnv := fun stem =>
  if stem = 0 then mkResult 500 20 (1, 0, 0) else mkResult 0 21 (0, 1, 0)

/-- The C5 scenario run: two passes of the production loop, then the
replot stage. -/
def c5Run : WorkCtx × RunOutcome :=
  xspectra_base_workchain scnInputsAB c5Env c5PlotEnv 2

/-- Scenario inputs for C4: the three canonical basis vectors, powder
collection requested. -/
def c4Inputs : BaseInputs :=
  { scnInputsAB with
    eps_vectors := [(1, 0, 0), (0, 1, 0), (0, 0, 1)], collect_powder := true }

/-- C4 scenario environment: every production job succeeds on the first
pass. -/
def c4Env : ProdEnv := fun _ stem =>
  if stem = 0 then mkResult 0 10 (1, 0, 0)
  else if stem = 1 then mkResult 0 11 (0, 1, 0)
  else mkResult 0 12 (0, 0, 1)

/-- C4 scenario plot environment: every replot succeeds. -/
def c4PlotEnv : PlotEnv := fun stem =>
  if stem = 0 then mkResult 0 20 (1, 0, 0)
  else if stem = 1 then mkResult 0 21 (0, 1, 0)
  else mkResult 0 22 (0, 0, 1)

/-- The C4 scenario run. -/
def c4Run : WorkCtx × RunOutcome :=
  xspectra_base_workchain c4Inputs c4Env c4PlotEnv 1

/-- Scenario inputs for C6: basis vectors `[1,0,0]` and `[0,1,0]` only
(the C axis missing), powder collection requested. -/
def c6Inputs : BaseInputs :=
  { scnInputsAB with collect_powder := true }

/-- C6 scenario environment: both production jobs succeed on the first
pass. -/
def c6Env : ProdEnv := fun _ stem =>
  if stem = 0 then mkResult 0 10 (1, 0, 0) else mkResult 0 11 (0, 1, 0)

/-- C6 scenario plot environment: both replots succeed. -/
def c6PlotEnv : PlotEnv := fun stem =>
  if stem = 0 then mkResult 0 20 (1, 0, 0) else mkResult 0 21 (0, 1, 0)

/-- The C6 scenario run. -/
def c6Run : WorkCtx × RunOutcome :=
  xspectra_base_workchain c6Inputs c6Env c6PlotEnv 1

/-- The context after the first production pass of the C5 scenario (both
vectors submitted; vector 1 timed out with exit 400). -/
def c1WitnessPass1 : WorkCtx := run_all_xspectra_prod scnInputsAB c5Env setupCtx

/-- The timed-out calculation of that pass. -/
def c1WitnessCalc : XsCalc := freshProdCalc scnInputsAB (c5Env 0 1) 1 ((0 : ℚ), (1 : ℚ), (0 : ℚ))

/-- The context produced by inspecting that pass. -/
def c1WitnessAfterInspect : WorkCtx :=
  (inspect_all_xspectra_prod c1WitnessPass1).toOption.getD setupCtx

/-! ## Theorems -/

/-- C7: for every space-group number from the symmetry analysis, the
crystal workflow selects the polarization-vector set as a function of the
number alone: 1-74 give the three basis vectors (trichoric), 75-194 give
`[[1,0,0],[0,0,1]]` (dichoric), 195-230 give `[[1,0,0]]` (isochoric), and
exactly one of the three cases applies to each in-range number. -/
theorem c7_spacegroup_vector_sets (sg : ℕ) :
    (1 ≤ sg → sg ≤ 74 →
      spacegroup_eps_vectors sg = some [(1, 0, 0), (0, 1, 0), (0, 0, 1)]) ∧
    (75 ≤ sg → sg ≤ 194 →
      spacegroup_eps_vectors sg = some [(1, 0, 0), (0, 0, 1)]) ∧
    (195 ≤ sg → sg ≤ 230 →
      spacegroup_eps_vectors sg = some [(1, 0, 0)]) ∧
    (1 ≤ sg → sg ≤ 230 →
      ((1 ≤ sg ∧ sg ≤ 74) ∧ ¬(75 ≤ sg ∧ sg ≤ 194) ∧ ¬(195 ≤ sg ∧ sg ≤ 230)) ∨
      (¬(1 ≤ sg ∧ sg ≤ 74) ∧ (75 ≤ sg ∧ sg ≤ 194) ∧ ¬(195 ≤ sg ∧ sg ≤ 230)) ∨
      (¬(1 ≤ sg ∧ sg ≤ 74) ∧ ¬(75 ≤ sg ∧ sg ≤ 194) ∧ (195 ≤ sg ∧ sg ≤ 230))) := by
  refine ⟨?_, ?_, ?_, fun h1 h2 => by omega⟩ <;> intro h1 h2 <;>
    simp only [spacegroup_eps_vectors]
  · rw [if_neg (by omega), if_neg (by omega), if_pos (by omega)]
  · rw [if_neg (by omega), if_pos (by omega)]
  · rw [if_pos (by omega)]

/-- Witness for C7 at the dichoric space group 100. -/
theorem c7_spacegroup_vector_sets_witness :
    (75 ≤ 100 ∧ 100 ≤ 194) ∧
      spacegroup_eps_vectors 100 = some [(1, 0, 0), (0, 0, 1)] :=
  ⟨by omega, (c7_spacegroup_vector_sets 100).2.1 (by omega) (by omega)⟩

/-- C3: the powder reduction applied to a labelled spectra mapping
returns: for one input spectrum, its x and y verbatim with y units
`n/a`; for two input spectra (one labelled `eps_100` or `eps_010`, one
labelled `eps_001`, in either order), y equal to `(2*y_A + y_C)/3`
elementwise; for three input spectra labelled `eps_100`, `eps_010`,
`eps_001`, y equal to `(y_A + y_B + y_C)/3` elementwise with the x grid
taken from the `eps_100` spectrum. -/
theorem c3_get_powder_spectrum_cases :
    (∀ (l : String) (sp : Spectrum),
      get_powder_spectrum [(l, sp)] =
        some { x := sp.x, xlabel := "energy", xunits := "eV",
               y := sp.y, ylabel := "sigma", yunits := "n/a" }) ∧
    (∀ (la lc : String) (sa sc : Spectrum) (spectra : List (String × Spectrum)),
      (la = "eps_100" ∨ la = "eps_010") → lc = "eps_001" →
      (spectra = [(la, sa), (lc, sc)] ∨ spectra = [(lc, sc), (la, sa)]) →
      get_powder_spectrum spectra =
        some { x := sa.x, xlabel := "energy", xunits := "eV",
               y := List.zipWith (fun a c => (a * 2 + c) / 3) sa.y sc.y,
               ylabel := "sigma", yunits := "n/a" }) ∧
    (∀ (sa sb sc : Spectrum) (spectra : List (String × Spectrum)),
      spectra.length = 3 →
      lookupFirst ("eps_100") spectra = some sa →
      lookupFirst ("eps_010") spectra = some sb →
      lookupFirst ("eps_001") spectra = some sc →
      get_powder_spectrum spectra =
        some { x := sa.x, xlabel := "energy", xunits := "eV",
               y := List.zipWith3 (fun a b c => (a + b + c) / 3) sa.y sb.y sc.y,
               ylabel := "sigma", yunits := "n/a" }) := by
  refine ⟨?_, ?_, ?_⟩
  · intro l sp
    simp [get_powder_spectrum]
  · intro la lc sa sc spectra hla hlc hsp
    subst hlc
    rcases hsp with h | h <;> subst h <;>
      rcases hla with h | h <;> subst h <;>
      simp [get_powder_spectrum, lastBinding]
  · intro sa sb sc spectra h3 ha hb hc
    rw [get_powder_spectrum.eq_def, if_neg (by omega), if_neg (by omega), if_pos h3,
      ha, hb, hc]

/-- Witness for C3 at the spec's dichoric example `y_A = [2,4]`,
`y_C = [5,8]`, giving powder y `[3, 16/3]`, together with a one-spectrum
and a three-spectra instance. -/
theorem c3_get_powder_spectrum_cases_witness :
    get_powder_spectrum
        [("eps_100", { x := [0, 1], xlabel := "energy", xunits := "eV",
                       y := [2, 4], ylabel := "sigma", yunits := "counts" }),
         ("eps_001", { x := [0, 1], xlabel := "energy", xunits := "eV",
                       y := [5, 8], ylabel := "sigma", yunits := "counts" })] =
      some { x := [0, 1], xlabel := "energy", xunits := "eV",
             y := [3, 16 / 3], ylabel := "sigma", yunits := "n/a" } := by
  rw [c3_get_powder_spectrum_cases.2.1 ("eps_100") ("eps_001") _ _ _
    (Or.inl rfl) rfl (Or.inl rfl)]
  norm_num [List.zipWith]

/-- C9, counterexample: on the stdout content `"1  1 1 1 1 0 x"` (note the
double space) the 6th whitespace-separated token of the first line is `0`,
so the claim demands the no-GIPAW exit code 403, but the code parses token
index 5 of `content[:40].split(' ')` — which keeps the empty piece between
the consecutive spaces — obtains 1, and passes the element. -/
theorem c9_inspect_upf2plotcore_counterexample :
    spec_num_core_states ("1  1 1 1 1 0 x") = some 0 ∧
      num_core_states ("1  1 1 1 1 0 x") = some 1 ∧
      inspect_upf2plotcore [("1  1 1 1 1 0 x")] = .ok none := by
  refine ⟨by decide, by decide, ?_⟩
  have h : num_core_states ("1  1 1 1 1 0 x") = some 1 := by decide
  simp [inspect_upf2plotcore, h]

/-- C9, amended: for every absorbing element whose stdout parses (the
token at index 5 of the first 40 characters split on single spaces is an
integer), the inspection returns the no-GIPAW exit code 403 exactly when
some element's parsed core-state count equals zero; otherwise every
element passes. -/
theorem c9_inspect_upf2plotcore_amended (stdouts : List String)
    (h : ∀ c ∈ stdouts, (num_core_states c).isSome) :
    inspect_upf2plotcore stdouts = .ok (some 403) ↔
      ∃ c ∈ stdouts, num_core_states c = some 0 := by
  induction stdouts with
  | nil => simp [inspect_upf2plotcore]
  | cons c rest ih =>
    obtain ⟨n, hn⟩ := Option.isSome_iff_exists.mp (h c (by simp))
    simp only [inspect_upf2plotcore, hn]
    by_cases hz : n = 0
    · subst hz
      simp [hn]
    · rw [if_neg hz, ih (fun d hd => h d (by simp [hd]))]
      constructor
      · rintro ⟨d, hd, hd0⟩
        exact ⟨d, by simp [hd], hd0⟩
      · rintro ⟨d, hd, hd0⟩
        rcases List.mem_cons.mp hd with h1 | h1
        · subst h1
          rw [hn] at hd0
          exact absurd (Option.some.inj hd0) hz
        · exact ⟨d, h1, hd0⟩

/-- Witness for C9 on a single stdout whose 6th single-space token is 0:
the inspection reports exit code 403. -/
theorem c9_inspect_upf2plotcore_amended_witness :
    (∀ c ∈ [("28 2 2 1s 1 0")], (num_core_states c).isSome) ∧
      inspect_upf2plotcore [("28 2 2 1s 1 0")] = .ok (some 403) :=
  ⟨by decide,
    (c9_inspect_upf2plotcore_amended [("28 2 2 1s 1 0")] (by decide)).mpr
      ⟨("28 2 2 1s 1 0"), by decide, by decide⟩⟩

/-- Inserting into a sorted list leaves element counts as for plain
cons. -/
theorem count_insertSorted [DecidableEq α] (le : α → α → Bool) (x : α)
    (l : List α) (y : α) :
    (insertSorted le x l).count y = (x :: l).count y := by
  induction l with
  | nil => rfl
  | cons z zs ih =>
    by_cases h : le x z
    · simp [insertSorted, h]
    · simp only [insertSorted, h, if_false, Bool.false_eq_true]
      simp only [List.count_cons, ih]
      omega

/-- The stable sort preserves element counts. -/
theorem count_pySorted [DecidableEq α] (le : α → α → Bool) (l : List α) (y : α) :
    (pySorted le l).count y = l.count y := by
  induction l with
  | nil => rfl
  | cons x xs ih =>
    rw [pySorted, count_insertSorted]
    simp [List.count_cons, ih]

/-- With no occurrence of the marker left, the counter loop returns its
accumulator. -/
theorem kind_counter_loop_of_count_zero (m : String) (l : List String)
    (h : l.count m = 0) (c : ℕ) (acc : Option ℕ) :
    kind_counter_loop m l c acc = acc := by
  induction l generalizing c with
  | nil => rfl
  | cons k rest ih =>
    have hk : ¬ k = m := by
      intro he
      subst he
      simp [List.count_cons] at h
    rw [kind_counter_loop, if_neg hk]
    exact ih (by simpa [List.count_cons, hk] using h) (c + 1)

/-- With exactly one occurrence of the marker, the counter loop binds the
counter value reached at that occurrence. -/
theorem kind_counter_loop_of_count_one (m : String) (l : List String)
    (h : l.count m = 1) (c : ℕ) :
    kind_counter_loop m l c none = some (c + py_index m l) := by
  induction l generalizing c with
  | nil => simp at h
  | cons k rest ih =>
    by_cases hk : k = m
    · subst hk
      have hrest : rest.count k = 0 := by simpa [List.count_cons] using h
      rw [kind_counter_loop, if_pos rfl,
        kind_counter_loop_of_count_zero k rest hrest, py_index, if_pos rfl]
      simp
    · rw [kind_counter_loop, if_neg hk, py_index, if_neg hk,
        ih (by simpa [List.count_cons, hk] using h) (c + 1)]
      congr 1
      omega

/-- C10: when the kind list contains the absorbing-atom marker exactly
once, the `xiabs` computed by the base workchain's counter loop over the
sorted kind list equals the `xiabs` computed by the crystal workchain as
the 1-based position of the marker in the sorted kind names. -/
theorem c10_xiabs_equivalence (kinds : List String) (marker : String)
    (h : kinds.count marker = 1) :
    base_xiabs kinds marker = crystal_xiabs kinds marker := by
  have hs : (sortedKinds kinds).count marker = 1 := by
    rw [sortedKinds, count_pySorted]
    exact h
  have hmem : marker ∈ sortedKinds kinds := by
    have : 0 < (sortedKinds kinds).count marker := by omega
    exact List.count_pos_iff.mp this
  rw [base_xiabs, crystal_xiabs, kind_counter_loop_of_count_one _ _ hs 1,
    if_pos hmem]
  congr 1
  omega

/-- Witness for C10 on the kind list `["Si", "O", "X"]` with marker `X`:
both computations give index 3. -/
theorem c10_xiabs_equivalence_witness :
    ([("Si"), ("O"), ("X")].count ("X") = 1) ∧
      base_xiabs [("Si"), ("O"), ("X")] ("X") = crystal_xiabs [("Si"), ("O"), ("X")] ("X") ∧
      crystal_xiabs [("Si"), ("O"), ("X")] ("X") = some 3 :=
  ⟨by decide, c10_xiabs_equivalence _ _ (by decide), by decide⟩

/-! ### Helper lemmas about the production loop -/

theorem ctxLookup_insert_self (k : ℕ) (v : α) (m : List (ℕ × α)) :
    ctxLookup k (ctxInsert k v m) = some v := by
  induction m with
  | nil => simp [ctxInsert, ctxLookup]
  | cons kv rest ih =>
    by_cases h : kv.1 = k
    · simp [ctxInsert, ctxLookup, h]
    · simp [ctxInsert, ctxLookup, h, ih]

theorem ctxLookup_insert_of_ne (k k2 : ℕ) (v : α) (m : List (ℕ × α)) (h : k ≠ k2) :
    ctxLookup k (ctxInsert k2 v m) = ctxLookup k m := by
  have h2 : ¬ (k2 = k) := fun he => h he.symm
  induction m with
  | nil => simp [ctxInsert, ctxLookup, h2]
  | cons kv rest ih =>
    by_cases hk : kv.1 = k2
    · simp [ctxInsert, ctxLookup, hk, h2]
    · simp [ctxInsert, ctxLookup, hk, ih]

/-- Folding a batch of keyed insertions does not disturb lookups of keys
outside the batch. -/
theorem ctxLookup_foldl_insert_of_not_mem (cs : List XsCalc) (m : List (ℕ × XsCalc))
    (k : ℕ) (h : k ∉ cs.map (fun c => c.stem)) :
    ctxLookup k (cs.foldl (fun m c => ctxInsert c.stem c m) m) = ctxLookup k m := by
  induction cs generalizing m with
  | nil => rfl
  | cons c rest ih =>
    simp only [List.map_cons, List.mem_cons] at h
    push_neg at h
    rw [List.foldl_cons, ih _ h.2, ctxLookup_insert_of_ne _ _ _ _ h.1]

/-- After a batch of insertions with pairwise distinct stems, looking the
batch's own stems back up returns exactly the batch. -/
theorem filterMap_lookup_foldl_insert (cs : List XsCalc) (m : List (ℕ × XsCalc))
    (h : (cs.map (fun c => c.stem)).Nodup) :
    (cs.map (fun c => c.stem)).filterMap
        (fun l => ctxLookup l (cs.foldl (fun m c => ctxInsert c.stem c m) m)) = cs := by
  induction cs generalizing m with
  | nil => rfl
  | cons c rest ih =>
    simp only [List.map_cons, List.nodup_cons] at h
    rw [List.map_cons, List.foldl_cons, List.filterMap_cons]
    rw [ctxLookup_foldl_insert_of_not_mem rest _ c.stem h.1, ctxLookup_insert_self]
    rw [ih (ctxInsert c.stem c m) h.2]

theorem run_prod_submitted (inputs : BaseInputs) (env : ProdEnv) (s : WorkCtx) :
    (run_all_xspectra_prod inputs env s).submitted =
      s.submitted ++ newProdCalcs inputs env s := rfl

theorem run_prod_labels (inputs : BaseInputs) (env : ProdEnv) (s : WorkCtx) :
    (run_all_xspectra_prod inputs env s).xspectra_calc_labels =
      (newProdCalcs inputs env s).map (fun c => c.stem) := rfl

theorem run_prod_restart_list (inputs : BaseInputs) (env : ProdEnv) (s : WorkCtx) :
    (run_all_xspectra_prod inputs env s).lanczos_to_restart = s.lanczos_to_restart := rfl

theorem run_prod_finished (inputs : BaseInputs) (env : ProdEnv) (s : WorkCtx) :
    (run_all_xspectra_prod inputs env s).finished_lanczos = s.finished_lanczos := rfl

theorem run_prod_computed (inputs : BaseInputs) (env : ProdEnv) (s : WorkCtx) :
    (run_all_xspectra_prod inputs env s).all_lanczos_computed = s.all_lanczos_computed := rfl

/-- The calculations inspected right after a production pass are exactly
that pass's submissions, provided their stems are pairwise distinct. -/
theorem prodCalcsToInspect_run (inputs : BaseInputs) (env : ProdEnv) (s : WorkCtx)
    (h : ((newProdCalcs inputs env s).map (fun c => c.stem)).Nodup) :
    prodCalcsToInspect (run_all_xspectra_prod inputs env s) = newProdCalcs inputs env s := by
  rw [prodCalcsToInspect, run_prod_labels]
  exact filterMap_lookup_foldl_insert _ _ h

/-- A fatal failure (neither success nor 400) anywhere in the inspected
batch makes the inspection loop return exit code 402. -/
theorem inspect_prod_loop_fatal (s : WorkCtx) (calcs : List XsCalc)
    (fin res : List XsCalc) (rr : Bool)
    (h : ∃ c ∈ calcs, ¬ c.result.exit_status = 0 ∧ ¬ c.result.exit_status = 400) :
    inspect_prod_loop s calcs fin res rr = .error 402 := by
  induction calcs generalizing fin res rr with
  | nil => simp at h
  | cons c rest ih =>
    obtain ⟨d, hd, hd0, hd400⟩ := h
    rcases List.mem_cons.mp hd with he | he
    · subst he
      rw [inspect_prod_loop, if_neg hd0, if_neg hd400]
    · by_cases h0 : c.result.exit_status = 0
      · rw [inspect_prod_loop, if_pos h0]
        exact ih _ _ _ ⟨d, he, hd0, hd400⟩
      · by_cases h400 : c.result.exit_status = 400
        · rw [inspect_prod_loop, if_neg h0, if_pos h400]
          exact ih _ _ _ ⟨d, he, hd0, hd400⟩
        · rw [inspect_prod_loop, if_neg h0, if_neg h400]

/-- With no fatal failure in the batch, the inspection loop sorts the
successes into `finished_lanczos` and the timed-out jobs into the restart
list; with no timeout at all it instead marks the production finished. -/
theorem inspect_prod_loop_ok (s : WorkCtx) (calcs : List XsCalc)
    (fin res : List XsCalc) (rr : Bool)
    (h : ∀ c ∈ calcs, c.result.exit_status = 0 ∨ c.result.exit_status = 400) :
    inspect_prod_loop s calcs fin res rr =
      if rr || calcs.any (fun c => c.result.exit_status == 400) then
        .ok { s with
          finished_lanczos := fin ++ calcs.filter (fun c => c.result.exit_status == 0),
          lanczos_to_restart := res ++ calcs.filter (fun c => c.result.exit_status == 400) }
      else
        .ok { s with
          finished_lanczos := fin ++ calcs.filter (fun c => c.result.exit_status == 0),
          all_lanczos_computed := true } := by
  induction calcs generalizing fin res rr with
  | nil => cases rr <;> simp [inspect_prod_loop]
  | cons c rest ih =>
    rcases h c (by simp) with h0 | h400
    · rw [inspect_prod_loop, if_pos h0, ih _ _ _ (fun d hd => h d (by simp [hd]))]
      have hne : ¬ (c.result.exit_status == 400) = true := by
        simp [h0]
      simp only [List.any_cons, List.filter_cons, hne, h0]
      simp
    · have h0 : ¬ c.result.exit_status = 0 := by
        rw [h400]
        omega
      rw [inspect_prod_loop, if_neg h0, if_pos h400,
        ih _ _ _ (fun d hd => h d (by simp [hd]))]
      simp only [List.any_cons, List.filter_cons, h400, h0]
      simp

/-- The inspection loop fails only with exit code 402. -/
theorem inspect_prod_loop_error_eq (s : WorkCtx) (calcs : List XsCalc)
    (fin res : List XsCalc) (rr : Bool) (e : ℕ)
    (h : inspect_prod_loop s calcs fin res rr = .error e) : e = 402 := by
  induction calcs generalizing fin res rr with
  | nil =>
    rw [inspect_prod_loop] at h
    split at h <;> simp at h
  | cons c rest ih =>
    rw [inspect_prod_loop] at h
    split at h
    · exact ih _ _ _ h
    · split at h
      · exact ih _ _ _ h
      · simpa using h.symm

/-- C1: a production calculation that completes with exit status 400 is
routed into the restart list (and that list is exactly the 400-failures
of the batch, so the calculation appears in it once per completion); on
the next pass the loop submits exactly one replacement job per restart
entry, whose label keeps the stem and increments the iteration suffix by
exactly 1, whose parameters are the prior attempt's own input parameters
with `restart_mode` set to `restart` (in particular the polarization
vector `xepsilon(1..3)` is identical), and whose parent working directory
is the prior attempt's own remote output folder. -/
theorem c1_timeout_restart (inputs : BaseInputs) (env : ProdEnv)
    (s s2 : WorkCtx) (c : XsCalc)
    (hmem : c ∈ prodCalcsToInspect s) (h400 : c.result.exit_status = 400)
    (hok : inspect_all_xspectra_prod s = .ok s2) :
    c ∈ s2.lanczos_to_restart ∧
    s2.lanczos_to_restart =
      (prodCalcsToInspect s).filter (fun d => d.result.exit_status == 400) ∧
    newProdCalcs inputs env s2 =
      s2.lanczos_to_restart.map (fun d => restartProdCalc d (env s2.pass_no d.stem)) ∧
    (run_all_xspectra_prod inputs env s2).submitted =
      s2.submitted ++
        s2.lanczos_to_restart.map (fun d => restartProdCalc d (env s2.pass_no d.stem)) ∧
    ∀ (d : XsCalc) (r : JobResult),
      (restartProdCalc d r).stem = d.stem ∧
      (restartProdCalc d r).iter = d.iter + 1 ∧
      (restartProdCalc d r).parameters =
        { d.parameters with restart_mode := some "restart" } ∧
      (restartProdCalc d r).parameters.xepsilon1 = d.parameters.xepsilon1 ∧
      (restartProdCalc d r).parameters.xepsilon2 = d.parameters.xepsilon2 ∧
      (restartProdCalc d r).parameters.xepsilon3 = d.parameters.xepsilon3 ∧
      (restartProdCalc d r).parent_folder = d.result.remote_folder ∧
      calcLabel (restartProdCalc d r) =
        "xas_prod_" ++ Nat.repr d.stem ++ "_iter_" ++ Nat.repr (d.iter + 1) := by
  have hnofatal : ∀ d ∈ prodCalcsToInspect s,
      d.result.exit_status = 0 ∨ d.result.exit_status = 400 := by
    intro d hd
    by_contra hcon
    push_neg at hcon
    rw [inspect_all_xspectra_prod,
      inspect_prod_loop_fatal s _ _ _ _ ⟨d, hd, hcon.1, hcon.2⟩] at hok
    exact absurd hok (by simp)
  have hany : (prodCalcsToInspect s).any (fun d => d.result.exit_status == 400) = true := by
    rw [List.any_eq_true]
    exact ⟨c, hmem, by simp [h400]⟩
  rw [inspect_all_xspectra_prod, inspect_prod_loop_ok s _ _ _ _ hnofatal] at hok
  rw [hany, Bool.or_true, if_pos rfl] at hok
  have hs2 := (Except.ok.inj hok).symm
  have hrestart : s2.lanczos_to_restart =
      (prodCalcsToInspect s).filter (fun d => d.result.exit_status == 400) := by
    rw [hs2]
    simp
  have hcmem : c ∈ s2.lanczos_to_restart := by
    rw [hrestart, List.mem_filter]
    exact ⟨hmem, by simp [h400]⟩
  have hne : ¬ s2.lanczos_to_restart.isEmpty = true := by
    intro he
    rw [List.isEmpty_iff] at he
    rw [he] at hcmem
    exact absurd hcmem (List.not_mem_nil c)
  refine ⟨hcmem, hrestart, ?_, ?_, ?_⟩
  · rw [newProdCalcs, if_neg hne]
  · rw [run_prod_submitted, newProdCalcs, if_neg hne]
  · intro d r
    refine ⟨rfl, rfl, rfl, rfl, rfl, rfl, rfl, rfl⟩

/-- Witness for C1 on the C5 scenario: the calculation for vector 1 timed
out (exit 400) on the first pass, and the next pass resubmits it with the
iteration suffix bumped from 1 to 2 (label `xas_prod_1_iter_1` becomes
`xas_prod_1_iter_2`), `restart_mode` set, the polarization vector kept,
and the parent folder pointing at the prior attempt's remote folder. -/
theorem c1_timeout_restart_witness :
    c1WitnessCalc ∈ prodCalcsToInspect c1WitnessPass1 ∧
    c1WitnessCalc.result.exit_status = 400 ∧
    inspect_all_xspectra_prod c1WitnessPass1 = .ok c1WitnessAfterInspect ∧
    c1WitnessCalc ∈ c1WitnessAfterInspect.lanczos_to_restart ∧
    calcLabel c1WitnessCalc = "xas_prod_1_iter_1" ∧
    calcLabel (restartProdCalc c1WitnessCalc (c5Env 1 1)) = "xas_prod_1_iter_2" := by
  have h1 : c1WitnessCalc ∈ prodCalcsToInspect c1WitnessPass1 :=
    List.mem_cons_of_mem _ (List.mem_cons_self _ _)
  have h2 : c1WitnessCalc.result.exit_status = 400 := rfl
  have h3 : inspect_all_xspectra_prod c1WitnessPass1 = .ok c1WitnessAfterInspect := rfl
  have hc := c1_timeout_restart scnInputsAB c5Env c1WitnessPass1
    c1WitnessAfterInspect c1WitnessCalc h1 h2 h3
  exact ⟨h1, h2, h3, hc.1, rfl, rfl⟩

/-- The inspection loop, when it succeeds, changes only the
`finished_lanczos` / `lanczos_to_restart` / `all_lanczos_computed`
fields of the context. -/
theorem inspect_prod_loop_ok_preserves (s : WorkCtx) (calcs fin res : List XsCalc)
    (rr : Bool) (s2 : WorkCtx) (h : inspect_prod_loop s calcs fin res rr = .ok s2) :
    s2.pass_no = s.pass_no ∧ s2.xspectra_calc_labels = s.xspectra_calc_labels ∧
    s2.prod_ctx = s.prod_ctx ∧ s2.plot_ctx = s.plot_ctx ∧
    s2.finished_replots = s.finished_replots ∧ s2.submitted = s.submitted := by
  induction calcs generalizing fin res rr with
  | nil =>
    rw [inspect_prod_loop] at h
    split at h <;> · rw [← Except.ok.inj h]; exact ⟨rfl, rfl, rfl, rfl, rfl, rfl⟩
  | cons c rest ih =>
    rw [inspect_prod_loop] at h
    split at h
    · exact ih _ _ _ h
    · split at h
      · exact ih _ _ _ h
      · simp at h

/-- The production loop never touches the replot context. -/
theorem xs_prod_loop_preserves_plot (inputs : BaseInputs) (env : ProdEnv) (fuel : ℕ)
    (s : WorkCtx) :
    (xs_prod_loop inputs env fuel s).1.plot_ctx = s.plot_ctx ∧
    (xs_prod_loop inputs env fuel s).1.finished_replots = s.finished_replots := by
  induction fuel generalizing s with
  | zero => exact ⟨rfl, rfl⟩
  | succ fuel ih =>
    rw [xs_prod_loop]
    by_cases hc : s.all_lanczos_computed
    · rw [if_pos hc]
      exact ⟨rfl, rfl⟩
    · rw [if_neg hc]
      rcases hi : inspect_all_xspectra_prod (run_all_xspectra_prod inputs env s) with e | s2
      · simp only [hi]
        exact ⟨rfl, rfl⟩
      · simp only [hi]
        have hp := inspect_prod_loop_ok_preserves _ _ _ _ _ _ hi
        rcases ih s2 with ⟨ih1, ih2⟩
        exact ⟨ih1.trans hp.2.2.2.1, ih2.trans hp.2.2.2.2.1⟩

/-- An exit code returned from inside the production loop is always
402. -/
theorem xs_prod_loop_error_eq (inputs : BaseInputs) (env : ProdEnv) (fuel : ℕ)
    (s s2 : WorkCtx) (e : ℕ) (h : xs_prod_loop inputs env fuel s = (s2, some e)) :
    e = 402 := by
  induction fuel generalizing s with
  | zero => simp [xs_prod_loop] at h
  | succ fuel ih =>
    rw [xs_prod_loop] at h
    by_cases hc : s.all_lanczos_computed
    · rw [if_pos hc] at h
      simp at h
    · rw [if_neg hc] at h
      rcases hi : inspect_all_xspectra_prod (run_all_xspectra_prod inputs env s)
        with e2 | s3
      · simp only [hi] at h
        have he : e2 = e := by
          have h2 := congrArg Prod.snd h
          simpa using h2
        exact he ▸ inspect_prod_loop_error_eq _ _ _ _ _ _ hi
      · simp only [hi] at h
        exact ih s3 h

/-- C2: a production calculation that finished unsuccessfully with any
exit status other than 400 makes the inspection abort on the spot with
exit code 402 (`ERROR_SUB_PROCESS_FAILED_XSPECTRA`); whenever the
production loop ends with an exit code, that code is 402, the whole
workchain fails with it, and no replot job and no output (in particular
no `output_spectra`) is ever produced. -/
theorem c2_fatal_failure_aborts :
    (∀ (s : WorkCtx) (c : XsCalc), c ∈ prodCalcsToInspect s →
      ¬ c.result.exit_status = 0 → ¬ c.result.exit_status = 400 →
      inspect_all_xspectra_prod s = .error 402) ∧
    (∀ (inputs : BaseInputs) (env : ProdEnv) (envp : PlotEnv) (fuel : ℕ)
      (s : WorkCtx) (e : ℕ),
      xs_prod_loop inputs env fuel setupCtx = (s, some e) →
      e = 402 ∧
      xspectra_base_workchain inputs env envp fuel = (s, .failed 402) ∧
      s.plot_ctx = [] ∧ s.finished_replots = []) := by
  constructor
  · intro s c hmem h0 h400
    exact inspect_prod_loop_fatal s _ _ _ _ ⟨c, hmem, h0, h400⟩
  · intro inputs env envp fuel s e h
    have he : e = 402 := xs_prod_loop_error_eq inputs env fuel setupCtx s e h
    subst he
    have hplot := xs_prod_loop_preserves_plot inputs env fuel setupCtx
    rw [h] at hplot
    refine ⟨rfl, ?_, hplot.1, hplot.2⟩
    rw [xspectra_base_workchain, h]

/-- Witness for C2 on the spec's scenario: vectors `[1,0,0]` and
`[0,1,0]`, the first succeeds, the second returns exit status 500 — the
loop returns exit code 402, the workchain fails with 402 and no replot
context or replot results exist. -/
theorem c2_fatal_failure_aborts_witness :
    xs_prod_loop scnInputsAB c2Env 1 setupCtx =
      ((xs_prod_loop scnInputsAB c2Env 1 setupCtx).1, some 402) ∧
    xspectra_base_workchain scnInputsAB c2Env c2PlotEnv 1 =
      ((xs_prod_loop scnInputsAB c2Env 1 setupCtx).1, .failed 402) ∧
    (xs_prod_loop scnInputsAB c2Env 1 setupCtx).1.plot_ctx = [] ∧
    (xs_prod_loop scnInputsAB c2Env 1 setupCtx).1.finished_replots = [] := by
  have h : xs_prod_loop scnInputsAB c2Env 1 setupCtx =
      ((xs_prod_loop scnInputsAB c2Env 1 setupCtx).1, some 402) := rfl
  have hc := c2_fatal_failure_aborts.2 scnInputsAB c2Env c2PlotEnv 1 _ 402 h
  exact ⟨h, hc.2.1, hc.2.2.1, hc.2.2.2⟩

/-- A submission log with pairwise distinct stems is safe. -/
theorem pairwise_prodSafe_of_stems_nodup (log : List XsCalc)
    (h : (log.map (fun c => c.stem)).Nodup) : log.Pairwise ProdSafe := by
  rw [List.Nodup, List.pairwise_map] at h
  exact h.imp (fun hne _ => fun he => hne he.symm)

theorem newProdCalcs_of_empty (inputs : BaseInputs) (env : ProdEnv) (s : WorkCtx)
    (h : s.lanczos_to_restart = []) :
    newProdCalcs inputs env s =
      (inputs.eps_vectors.enum).map
        (fun p => freshProdCalc inputs (env s.pass_no p.1) p.1 p.2) := by
  rw [newProdCalcs, if_pos (by rw [h]; rfl)]

theorem newProdCalcs_of_ne (inputs : BaseInputs) (env : ProdEnv) (s : WorkCtx)
    (h : s.lanczos_to_restart ≠ []) :
    newProdCalcs inputs env s =
      s.lanczos_to_restart.map (fun c => restartProdCalc c (env s.pass_no c.stem)) := by
  rw [newProdCalcs, if_neg (by rw [List.isEmpty_iff]; exact h)]

/-- Fresh submissions carry the vector indices as stems. -/
theorem stems_of_fresh (inputs : BaseInputs) (env : ProdEnv) (s : WorkCtx) :
    (((inputs.eps_vectors.enum).map
        (fun p => freshProdCalc inputs (env s.pass_no p.1) p.1 p.2)).map
      (fun c => c.stem)) = (inputs.eps_vectors.enum).map Prod.fst := by
  rw [List.map_map]
  rfl

/-- Restart submissions keep the stems of the restart list. -/
theorem stems_of_restart (env : ProdEnv) (s : WorkCtx) :
    ((s.lanczos_to_restart.map
        (fun c => restartProdCalc c (env s.pass_no c.stem))).map (fun c => c.stem)) =
      s.lanczos_to_restart.map (fun c => c.stem) := by
  rw [List.map_map]
  rfl

/-- One production pass from a loop-invariant state: the grown submission
log is still safe, the fresh stems are pairwise distinct, and no new
submission reuses the stem of an already accepted one. -/
theorem run_prod_safe (inputs : BaseInputs) (env : ProdEnv) (s : WorkCtx)
    (hInv : LoopInv s) (hnc : s.all_lanczos_computed = false) :
    (run_all_xspectra_prod inputs env s).submitted.Pairwise ProdSafe ∧
    ((newProdCalcs inputs env s).map (fun c => c.stem)).Nodup ∧
    (∀ a ∈ s.submitted, a.result.exit_status = 0 →
      ∀ b ∈ newProdCalcs inputs env s, b.stem ≠ a.stem) := by
  by_cases hres : s.lanczos_to_restart = []
  · have hp : s.pass_no = 0 := by
      by_contra hp
      exact absurd hres (hInv.restart_nonempty hnc hp)
    have hsub : s.submitted = [] := (hInv.first_pass hp).1
    have hnodup : ((newProdCalcs inputs env s).map (fun c => c.stem)).Nodup := by
      rw [newProdCalcs_of_empty inputs env s hres, stems_of_fresh]
      exact List.nodup_enum_map_fst _
    refine ⟨?_, hnodup, ?_⟩
    · rw [run_prod_submitted, hsub, List.nil_append]
      exact pairwise_prodSafe_of_stems_nodup _ hnodup
    · intro a ha
      rw [hsub] at ha
      exact absurd ha (List.not_mem_nil a)
  · have hnodup : ((newProdCalcs inputs env s).map (fun c => c.stem)).Nodup := by
      rw [newProdCalcs_of_ne inputs env s hres, stems_of_restart]
      exact hInv.restart_nodup hnc
    have hcross : ∀ a ∈ s.submitted, a.result.exit_status = 0 →
        ∀ b ∈ newProdCalcs inputs env s, b.stem ≠ a.stem := by
      intro a ha hok b hb
      rw [newProdCalcs_of_ne inputs env s hres] at hb
      obtain ⟨d, hd, hdb⟩ := List.mem_map.mp hb
      have hds : b.stem = d.stem := by rw [← hdb]; rfl
      rw [hds]
      exact hInv.restart_not_accepted hnc a ha hok d hd
    refine ⟨?_, hnodup, hcross⟩
    rw [run_prod_submitted, List.pairwise_append]
    refine ⟨hInv.log_safe, pairwise_prodSafe_of_stems_nodup _ hnodup, ?_⟩
    intro a ha b hb
    exact fun hok => hcross a ha hok b hb

/-- A successful inspection after a production pass preserves the loop
invariant. -/
theorem loopInv_step (inputs : BaseInputs) (env : ProdEnv) (s s2 : WorkCtx)
    (hInv : LoopInv s) (hnc : s.all_lanczos_computed = false)
    (hok : inspect_all_xspectra_prod (run_all_xspectra_prod inputs env s) = .ok s2) :
    LoopInv s2 := by
  obtain ⟨hsafe1, hnodupNew, hcross⟩ := run_prod_safe inputs env s hInv hnc
  have hcalcs : prodCalcsToInspect (run_all_xspectra_prod inputs env s) =
      newProdCalcs inputs env s := prodCalcsToInspect_run inputs env s hnodupNew
  have hnofatal : ∀ d ∈ prodCalcsToInspect (run_all_xspectra_prod inputs env s),
      d.result.exit_status = 0 ∨ d.result.exit_status = 400 := by
    intro d hd
    by_contra hcon
    push_neg at hcon
    rw [inspect_all_xspectra_prod,
      inspect_prod_loop_fatal _ _ _ _ _ ⟨d, hd, hcon.1, hcon.2⟩] at hok
    exact absurd hok (by simp)
  rw [inspect_all_xspectra_prod, inspect_prod_loop_ok _ _ _ _ _ hnofatal,
    Bool.false_or] at hok
  rcases hany : (prodCalcsToInspect (run_all_xspectra_prod inputs env s)).any
      (fun c => c.result.exit_status == 400) with _ | _
  · rw [hany, if_neg (by simp)] at hok
    have hs2 := (Except.ok.inj hok).symm
    refine ⟨?_, ?_, ?_, ?_, ?_, ?_⟩
    · rw [hs2]
      exact hsafe1
    · rw [hs2]
      simpa [run_prod_restart_list] using hInv.restart_400
    · intro hc
      rw [hs2] at hc
      simp at hc
    · intro hc
      rw [hs2] at hc
      simp at hc
    · intro hc
      rw [hs2] at hc
      simp at hc
    · intro hp
      rw [hs2] at hp
      simp [run_all_xspectra_prod] at hp
  · rw [hany, if_pos rfl] at hok
    have hs2 := (Except.ok.inj hok).symm
    have hrestart2 : s2.lanczos_to_restart =
        (newProdCalcs inputs env s).filter (fun c => c.result.exit_status == 400) := by
      rw [hs2, ← hcalcs]
      simp
    have hsub2 : s2.submitted = (run_all_xspectra_prod inputs env s).submitted := by
      rw [hs2]
    refine ⟨?_, ?_, ?_, ?_, ?_, ?_⟩
    · rw [hsub2]
      exact hsafe1
    · intro c hc
      rw [hrestart2] at hc
      simpa using (List.mem_filter.mp hc).2
    · intro _ a ha hok2 c hc
      rw [hrestart2] at hc
      rw [hsub2, run_prod_submitted] at ha
      obtain ⟨hcnew, hc400⟩ := List.mem_filter.mp hc
      rcases List.mem_append.mp ha with hold | hnew
      · exact hcross a hold hok2 c hcnew
      · intro hstem
        have hca : c = a :=
          List.inj_on_of_nodup_map hnodupNew hcnew hnew hstem
        rw [hca] at hc400
        rw [hok2] at hc400
        simp at hc400
    · intro _
      rw [hrestart2]
      exact ((List.filter_sublist _).map _).nodup hnodupNew
    · intro _ _
      rw [hrestart2]
      have hex : ∃ c ∈ prodCalcsToInspect (run_all_xspectra_prod inputs env s),
          (fun c => c.result.exit_status == 400) c = true := List.any_eq_true.mp hany
      obtain ⟨c, hc, hc4⟩ := hex
      rw [hcalcs] at hc
      exact List.ne_nil_of_mem (List.mem_filter.mpr ⟨hc, hc4⟩)
    · intro hp
      rw [hs2] at hp
      simp [run_all_xspectra_prod] at hp

/-- The loop invariant holds right after `setup`. -/
theorem loopInv_setup : LoopInv setupCtx := by
  refine ⟨List.Pairwise.nil, ?_, ?_, ?_, ?_, ?_⟩
  · intro c hc
    exact absurd hc (List.not_mem_nil c)
  · intro _ a ha
    exact absurd ha (List.not_mem_nil a)
  · intro _
    exact List.nodup_nil
  · intro _ hp
    exact absurd rfl hp
  · intro _
    exact ⟨rfl, rfl⟩

/-- Trace safety of the production loop: from any loop-invariant state,
the final submission log is safe and every restart-list entry is a
timed-out job. -/
theorem xs_prod_loop_safe (inputs : BaseInputs) (env : ProdEnv) (fuel : ℕ)
    (s : WorkCtx) (hInv : LoopInv s) :
    (xs_prod_loop inputs env fuel s).1.submitted.Pairwise ProdSafe ∧
    (∀ c ∈ (xs_prod_loop inputs env fuel s).1.lanczos_to_restart,
      c.result.exit_status = 400) := by
  induction fuel generalizing s with
  | zero => exact ⟨hInv.log_safe, hInv.restart_400⟩
  | succ fuel ih =>
    rw [xs_prod_loop]
    by_cases hc : s.all_lanczos_computed
    · rw [if_pos hc]
      exact ⟨hInv.log_safe, hInv.restart_400⟩
    · rw [if_neg hc]
      have hnc : s.all_lanczos_computed = false := by
        rw [Bool.not_eq_true] at hc
        exact hc
      rcases hi : inspect_all_xspectra_prod (run_all_xspectra_prod inputs env s)
        with e | s2
      · simp only [hi]
        obtain ⟨hsafe, _, _⟩ := run_prod_safe inputs env s hInv hnc
        refine ⟨hsafe, ?_⟩
        rw [run_prod_restart_list]
        exact hInv.restart_400
      · simp only [hi]
        exact ih s2 (loopInv_step inputs env s s2 hInv hnc hi)

/-- C8: over any run of the production loop, once a job is accepted its
stem (hence its polarization vector) is never submitted again — the
submission log is pairwise safe and the restart list only ever holds
timed-out (exit 400) jobs, never an accepted one; moreover fresh jobs for
all vectors are submitted exactly when the restart list is empty (which
after the first pass only happens once the loop is about to stop), and
otherwise the pass submits exactly the jobs of the restart list. -/
theorem c8_accepted_never_resubmitted (inputs : BaseInputs) (env : ProdEnv)
    (fuel : ℕ) :
    (xs_prod_loop inputs env fuel setupCtx).1.submitted.Pairwise ProdSafe ∧
    (∀ c ∈ (xs_prod_loop inputs env fuel setupCtx).1.lanczos_to_restart,
      c.result.exit_status = 400) ∧
    (∀ s : WorkCtx, s.lanczos_to_restart = [] →
      newProdCalcs inputs env s =
        (inputs.eps_vectors.enum).map
          (fun p => freshProdCalc inputs (env s.pass_no p.1) p.1 p.2)) ∧
    (∀ s : WorkCtx, s.lanczos_to_restart ≠ [] →
      newProdCalcs inputs env s =
        s.lanczos_to_restart.map (fun c => restartProdCalc c (env s.pass_no c.stem))) := by
  obtain ⟨h1, h2⟩ := xs_prod_loop_safe inputs env fuel setupCtx loopInv_setup
  exact ⟨h1, h2, newProdCalcs_of_empty inputs env, newProdCalcs_of_ne inputs env⟩

/-- Witness for C8: with the restart list empty the first pass submits
fresh jobs for both vectors; after the first C5-scenario pass the restart
list is nonempty and the second pass submits exactly its jobs. -/
theorem c8_accepted_never_resubmitted_witness :
    setupCtx.lanczos_to_restart = [] ∧
    newProdCalcs scnInputsAB c2Env setupCtx =
      [freshProdCalc scnInputsAB (c2Env 0 0) 0 ((1 : ℚ), (0 : ℚ), (0 : ℚ)),
       freshProdCalc scnInputsAB (c2Env 0 1) 1 ((0 : ℚ), (1 : ℚ), (0 : ℚ))] ∧
    c1WitnessAfterInspect.lanczos_to_restart ≠ [] ∧
    newProdCalcs scnInputsAB c5Env c1WitnessAfterInspect =
      c1WitnessAfterInspect.lanczos_to_restart.map
        (fun c => restartProdCalc c (c5Env c1WitnessAfterInspect.pass_no c.stem)) := by
  have hne : c1WitnessAfterInspect.lanczos_to_restart ≠ [] := by
    intro h
    have hlen : c1WitnessAfterInspect.lanczos_to_restart.length = 1 := rfl
    rw [h] at hlen
    simp at hlen
  refine ⟨rfl, ?_, hne, ?_⟩
  · exact ((c8_accepted_never_resubmitted scnInputsAB c2Env 0).2.2.1 setupCtx rfl).trans rfl
  · exact (c8_accepted_never_resubmitted scnInputsAB c5Env 0).2.2.2 c1WitnessAfterInspect hne

/-- C5, failing run: in the C5 scenario vector 0 is accepted on the first
pass and vector 1 on the second (after a 400 timeout), so the recorded
label list `xspectra_calc_labels` holds only stem 1; both accepted jobs
get a replot and the replot of stem 0 fails with exit status 500 — yet
the workchain completes successfully instead of failing with 402,
because `inspect_all_xspectra_plot` only checks the replots named by the
final production pass's label list. -/
theorem c5_replot_failure_escapes :
    c5Run.2.isFinished = true ∧
    (ctxLookup 0 c5Run.1.plot_ctx).map (fun p => p.result.exit_status) = some 500 ∧
    c5Run.1.finished_lanczos.length = 2 ∧
    c5Run.1.xspectra_calc_labels = [1] :=
  ⟨rfl, rfl, rfl, rfl⟩

/-- C4, failing run: powder collection is requested and all three
canonical basis vectors are accepted, yet the workchain finishes with no
`powder_spectrum` output and no warning, because the powder branch of
`results` tests `should_collect_powder`, which is initialised `False` and
never set. -/
theorem c4_powder_never_attached :
    c4Inputs.collect_powder = true ∧
    c4Run.1.finished_lanczos.map (fun c => c.result.epsilon_vector) =
      [((1 : ℚ), (0 : ℚ), (0 : ℚ)), ((0 : ℚ), (1 : ℚ), (0 : ℚ)),
       ((0 : ℚ), (0 : ℚ), (1 : ℚ))] ∧
    (c4Run.2.outputs).map (fun o => (o.powder_spectrum, o.warnings)) =
      some (none, []) :=
  ⟨rfl, rfl, rfl⟩

/-- C6, failing run: powder collection is requested and exactly the
`eps_100` and `eps_010` spectra are accepted with `eps_001` absent; no
powder spectrum is emitted (as the claim expects), but the specific
missing-C-axis warning is not reported either — the guard sits inside the
unreachable powder branch of `results`. -/
theorem c6_missing_c_axis_warning_skipped :
    c6Inputs.collect_powder = true ∧
    c6Run.1.finished_lanczos.map (fun c => c.result.epsilon_vector) =
      [((1 : ℚ), (0 : ℚ), (0 : ℚ)), ((0 : ℚ), (1 : ℚ), (0 : ℚ))] ∧
    (c6Run.2.outputs).map (fun o => (o.powder_spectrum, o.warnings)) =
      some (none, []) :=
  ⟨rfl, rfl, rfl⟩

end AiidaXspectra
